import Mathlib

/-!
# Verification of the deferral scope-guard library

Shallow embedding of `src/include/deferral.hh`: the four triggering
policies (`OnExitNoCheckPolicy`, `OnExitPolicy`, `OnFailPolicy`,
`OnSuccessPolicy`), the `DeferBase` guard lifecycle (construction,
move-construction, `release()`, destruction), and the host-runtime
collaborator `std::uncaught_exceptions()`, modelled as an explicit
integer argument (the number of exceptions currently in flight on the
destroying thread).

C++ `int` is modelled as `Int`; the one place the width matters is
`std::numeric_limits<int>::max()`, modelled as the literal
`2147483647`.  `std::uncaught_exceptions()` always returns a
nonnegative value that fits in `int`, so theorems that need it take
`0 ≤ cur` and `cur ≤ int_max` as hypotheses.

Each lifecycle operation additionally reports the list of stored
actions it invokes, so that claims about when the action runs (and how
often) are claims about these lists.
-/

namespace Deferral

/-- Value of `std::numeric_limits<int>::max()` for 32-bit `int`. -/
def int_max : Int := 2147483647

/-- The four policy variants of namespace `deferral::internal`:
`OnExitNoCheckPolicy`, `OnExitPolicy`, `OnFailPolicy`,
`OnSuccessPolicy`. -/
inductive PolicyKind where
  | onExitNoCheck
  | onExit
  | onFail
  | onSuccess
deriving DecidableEq, Repr

/-- The internal state of one policy object.

* `OnExitNoCheckPolicy` has no data members (stateless).
* `OnExitPolicy` holds `bool active{true}`.
* `OnFailPolicy` holds `int exception_count{std::uncaught_exceptions()}`.
* `OnSuccessPolicy` holds `int exception_count{std::uncaught_exceptions()}`. -/
inductive PolicyState where
  | onExitNoCheck
  | onExit (active : Bool)
  | onFail (exception_count : Int)
  | onSuccess (exception_count : Int)
deriving DecidableEq, Repr

/-- The variant a policy state belongs to. -/
def PolicyState.kind : PolicyState → PolicyKind
  | .onExitNoCheck => .onExitNoCheck
  | .onExit _ => .onExit
  | .onFail _ => .onFail
  | .onSuccess _ => .onSuccess

/-- Policy construction (`policyT{}` in the `DeferBase` constructor):
the non-static data member initializers run, reading
`std::uncaught_exceptions()` (passed here as `cur`) for the fail and
success policies; `OnExitPolicy` starts with `active = true`. -/
def PolicyState.init (k : PolicyKind) (cur : Int) : PolicyState :=
  match k with
  | .onExitNoCheck => .onExitNoCheck
  | .onExit => .onExit true
  | .onFail => .onFail cur
  | .onSuccess => .onSuccess cur

/-- Models `release()` of each policy class:
* `OnExitNoCheckPolicy::release()` is `{}` — a no-op;
* `OnExitPolicy::release()` runs `active = false;`
* `OnFailPolicy::release()` runs `exception_count = std::numeric_limits<int>::max();`
* `OnSuccessPolicy::release()` runs `exception_count = -1;` -/
def PolicyState.release : PolicyState → PolicyState
  | .onExitNoCheck => .onExitNoCheck
  | .onExit _ => .onExit false
  | .onFail _ => .onFail int_max
  | .onSuccess _ => .onSuccess (-1)

/-- Models `should_execute()` of each policy class, with the value of
`std::uncaught_exceptions()` at the call passed as `cur`:
* `OnExitNoCheckPolicy` — `return true;`
* `OnExitPolicy` — `return active;`
* `OnFailPolicy` — `return exception_count < std::uncaught_exceptions();`
* `OnSuccessPolicy` — `return exception_count >= std::uncaught_exceptions();` -/
def PolicyState.should_execute : PolicyState → Int → Bool
  | .onExitNoCheck, _ => true
  | .onExit active, _ => active
  | .onFail exception_count, cur => decide (exception_count < cur)
  | .onSuccess exception_count, cur => decide (cur ≤ exception_count)

/-- The guard `DeferBase<funcT, policyT>`: the stored callable `func`
(only its identity matters to the model, so it is a value of an
arbitrary type `α`) together with the state of the policy base class. -/
structure Guard (α : Type) where
  func : α
  policy : PolicyState
deriving DecidableEq, Repr

/-- The constructor `DeferBase(F&& f)`: value-initializes the policy
base (`policyT{}`, which for the fail/success policies reads the
current `std::uncaught_exceptions()` count `cur`) and stores the
function.  The constructor body is empty — it performs no invocation
of `f` — so the second component, the list of actions invoked by this
operation, is `[]`. -/
def Guard.construct (k : PolicyKind) (f : α) (cur : Int) : Guard α × List α :=
  (⟨f, PolicyState.init k cur⟩, [])

/-- The guard produced by `Guard.construct` (for the common case where
only the resulting object matters). -/
def mkGuard (k : PolicyKind) (f : α) (cur : Int) : Guard α :=
  (Guard.construct k f cur).1

/-- Member `DeferBase::release()` — `using policy_t::release;`
delegates to the policy. -/
def Guard.release (g : Guard α) : Guard α :=
  ⟨g.func, g.policy.release⟩

/-- The destructor `~DeferBase()`:
`if (should_execute()) { func(); }`.
Returns the list of actions this destruction invokes: `[g.func]` when
the policy says to execute, `[]` otherwise. -/
def Guard.destruct (g : Guard α) (cur : Int) : List α :=
  if g.policy.should_execute cur then [g.func] else []

/-- The move constructor `DeferBase(DeferBase&& other)`: the policy
base of the new object is move-constructed from the policy base of
`other` (the policy classes declare no special move constructor, so
the members are copied verbatim) and `func` is forwarded; then the
body runs `other.release();`.  Result: (destination guard, source
guard after the move, actions invoked by the operation — none, since
the body calls no stored function). -/
def Guard.moveConstruct (g : Guard α) : Guard α × Guard α × List α :=
  (⟨g.func, g.policy⟩, ⟨g.func, g.policy.release⟩, [])

/-- Models C++ scope teardown for a block of stack-allocated guards:
objects with automatic storage duration are destroyed in reverse order
of declaration, each destruction running `~DeferBase()`.  `gs` lists
the guards in declaration order; the result is the concatenated list
of actions invoked, in invocation order. -/
def scopeExit (gs : List (Guard α)) (cur : Int) : List α :=
  (gs.reverse.map (fun g => g.destruct cur)).flatten

end Deferral

namespace Deferral

/-- C1: for an `OnFail` guard whose baseline is the in-flight count
`b` captured at construction, `should_execute` at destruction is true
exactly when the current count `cur` is strictly greater than `b`; for
an `OnSuccess` guard it is true exactly when `cur ≤ b` (neither guard
released or moved from). -/
theorem onFail_onSuccess_should_execute_iff (f : Nat) (b cur : Int) :
    ((mkGuard .onFail f b).policy.should_execute cur = true ↔ b < cur) ∧
    ((mkGuard .onSuccess f b).policy.should_execute cur = true ↔ cur ≤ b) := by
  constructor <;>
    simp [mkGuard, Guard.construct, PolicyState.init, PolicyState.should_execute]

/-- C2: an `OnFail` guard and an `OnSuccess` guard constructed at the
same moment (same baseline `b`), neither released nor moved from: at
every current count `cur` their `should_execute` results are opposite
booleans — exactly one of the two fires, never both, never neither. -/
theorem onFail_onSuccess_mutually_exclusive (f g : Nat) (b cur : Int) :
    (mkGuard .onFail f b).policy.should_execute cur
      = !(mkGuard .onSuccess g b).policy.should_execute cur := by
  simp only [mkGuard, Guard.construct, PolicyState.init, PolicyState.should_execute]
  by_cases h : b < cur
  · simp [h, not_le.mpr h]
  · simp [h, not_lt.mp h]

/-- C3 counterexample: the claim extends release-suppression to every
policy variant, including the no-check variant, but
`OnExitNoCheckPolicy::release()` is a no-op and its `should_execute()`
is unconditionally true, so a released `OnExitNoCheck` guard still
invokes its action at destruction. -/
theorem release_does_not_suppress_noCheck :
    ((mkGuard PolicyKind.onExitNoCheck (0 : Nat) 0).release).destruct 0 = [0] := by
  decide

/-- C3 amended: for the three deactivatable policy variants (`OnExit`,
`OnFail`, `OnSuccess`), if `release()` is called before destruction
then destruction invokes nothing, at every current in-flight count
`cur` (normal exit or unwinding) in the range
`std::uncaught_exceptions()` can return. -/
theorem release_suppresses_deactivatable (k : PolicyKind)
    (hk : k ≠ PolicyKind.onExitNoCheck) (f : Nat) (b cur : Int)
    (h0 : 0 ≤ cur) (h1 : cur ≤ int_max) :
    ((mkGuard k f b).release).destruct cur = [] := by
  cases k with
  | onExitNoCheck => exact absurd rfl hk
  | onExit =>
      simp [mkGuard, Guard.construct, Guard.release, Guard.destruct,
        PolicyState.init, PolicyState.release, PolicyState.should_execute]
  | onFail =>
      simp [mkGuard, Guard.construct, Guard.release, Guard.destruct,
        PolicyState.init, PolicyState.release, PolicyState.should_execute]
      omega
  | onSuccess =>
      simp [mkGuard, Guard.construct, Guard.release, Guard.destruct,
        PolicyState.init, PolicyState.release, PolicyState.should_execute]
      omega

/-- Witness for the amended C3 at a concrete input: an `OnExit` guard
constructed at baseline 0, released, destroyed at count 0, invokes
nothing. -/
theorem release_suppresses_deactivatable_witness :
    ((mkGuard PolicyKind.onExit (5 : Nat) 0).release).destruct 0 = [] :=
  release_suppresses_deactivatable PolicyKind.onExit (by decide) 5 0 0
    (by decide) (by decide)

/-- C4 counterexample: moving from an `OnExitNoCheck` guard does not
disarm it (`release()` is a no-op there), so destroying the moved-from
source and the destination invokes the action twice in total — the
at-most-once claim fails for that variant. -/
theorem moved_from_noCheck_fires_twice :
    ((Guard.moveConstruct (mkGuard PolicyKind.onExitNoCheck (0 : Nat) 0)).2.1.destruct 0 ++
      (Guard.moveConstruct (mkGuard PolicyKind.onExitNoCheck (0 : Nat) 0)).1.destruct 0)
      = [0, 0] := by
  decide

/-- C4 amended: for a guard of any of the three deactivatable policy
variants (`OnExit`, `OnFail`, `OnSuccess`), in any state, being the
source of a move disarms it: the destruction of the moved-from guard
invokes nothing at every count `std::uncaught_exceptions()` can
return, and the moved-from source and the destination together invoke
the action at most once in total.  (For `OnExitNoCheck` the source is
not disarmed and fires again.) -/
theorem move_disarms_source (g : Guard Nat)
    (hk : g.policy.kind ≠ PolicyKind.onExitNoCheck) (cur cur2 : Int)
    (h0 : 0 ≤ cur) (h1 : cur ≤ int_max) :
    (Guard.moveConstruct g).2.1.destruct cur = [] ∧
    ((Guard.moveConstruct g).2.1.destruct cur ++
      (Guard.moveConstruct g).1.destruct cur2).length ≤ 1 := by
  obtain ⟨f, p⟩ := g
  cases p with
  | onExitNoCheck => exact absurd rfl hk
  | onExit active =>
      refine ⟨?_, ?_⟩ <;>
        simp [Guard.moveConstruct, Guard.destruct, PolicyState.release,
          PolicyState.should_execute, List.length_append]
      split <;> simp
  | onFail exception_count =>
      have hempty : (Guard.moveConstruct ⟨f, PolicyState.onFail exception_count⟩).2.1.destruct cur
          = [] := by
        simp [Guard.moveConstruct, Guard.destruct, PolicyState.release,
          PolicyState.should_execute]
        omega
      refine ⟨hempty, ?_⟩
      rw [hempty]
      simp [Guard.moveConstruct, Guard.destruct, PolicyState.should_execute]
      split <;> simp
  | onSuccess exception_count =>
      have hempty : (Guard.moveConstruct
          ⟨f, PolicyState.onSuccess exception_count⟩).2.1.destruct cur = [] := by
        simp [Guard.moveConstruct, Guard.destruct, PolicyState.release,
          PolicyState.should_execute]
        omega
      refine ⟨hempty, ?_⟩
      rw [hempty]
      simp [Guard.moveConstruct, Guard.destruct, PolicyState.should_execute]
      split <;> simp

/-- Witness for the amended C4 at a concrete input: an armed `OnExit`
guard with action 7, moved from; the source invokes nothing at count 0
and source plus destination invoke at most once. -/
theorem move_disarms_source_witness :
    (Guard.moveConstruct (⟨7, PolicyState.onExit true⟩ : Guard Nat)).2.1.destruct 0 = [] ∧
    ((Guard.moveConstruct (⟨7, PolicyState.onExit true⟩ : Guard Nat)).2.1.destruct 0 ++
      (Guard.moveConstruct (⟨7, PolicyState.onExit true⟩ : Guard Nat)).1.destruct 0).length ≤ 1 :=
  move_disarms_source ⟨7, PolicyState.onExit true⟩ (by decide) 0 0 (by decide) (by decide)

/-- C5: an `OnExit` guard that is neither released nor moved from
invokes its stored action exactly once at destruction, at every
current in-flight count `cur` — normal exit or unwinding alike, the
decision being independent of `cur`. -/
theorem onExit_fires_exactly_once (f : Nat) (b cur : Int) :
    (mkGuard PolicyKind.onExit f b).destruct cur = [f] := by
  simp [mkGuard, Guard.construct, Guard.destruct, PolicyState.init,
    PolicyState.should_execute]

/-- C6: an `OnFail` or `OnSuccess` guard constructed while the
in-flight count is `b` (possibly nonzero, nested failure) captures `b`
itself as its baseline, not zero; if it is destroyed while the count
is still exactly `b`, `OnFail` does not fire and `OnSuccess` does, and
in general `OnFail` fires exactly when the count has risen above `b`. -/
theorem baseline_is_count_at_construction (f : Nat) (b : Int) :
    (mkGuard .onFail f b).policy = PolicyState.onFail b ∧
    (mkGuard .onSuccess f b).policy = PolicyState.onSuccess b ∧
    (mkGuard .onFail f b).destruct b = [] ∧
    (mkGuard .onSuccess f b).destruct b = [f] ∧
    (∀ cur : Int, (mkGuard .onFail f b).destruct cur = [f] ↔ b < cur) := by
  refine ⟨rfl, rfl, ?_, ?_, ?_⟩
  · simp [mkGuard, Guard.construct, Guard.destruct, PolicyState.init,
      PolicyState.should_execute]
  · simp [mkGuard, Guard.construct, Guard.destruct, PolicyState.init,
      PolicyState.should_execute]
  · intro cur
    simp [mkGuard, Guard.construct, Guard.destruct, PolicyState.init,
      PolicyState.should_execute]

/-- C7: two armed `OnExit` guards declared in order A then B in the
same scope fire in reverse declaration order on scope exit: the action
of B is invoked before the action of A. -/
theorem onExit_guards_fire_in_reverse_order (fA fB : Nat) (bA bB cur : Int) :
    scopeExit [mkGuard .onExit fA bA, mkGuard .onExit fB bB] cur = [fB, fA] := by
  simp [scopeExit, mkGuard, Guard.construct, Guard.destruct, PolicyState.init,
    PolicyState.should_execute]

/-- C8: constructing a guard from an action invokes nothing, and
move-constructing a guard from another guard invokes nothing — for
every action, every policy variant, every in-flight count, and every
source guard state, the list of actions invoked by the operation is
empty. -/
theorem construct_and_move_invoke_nothing (k : PolicyKind) (f : Nat) (cur : Int)
    (g : Guard Nat) :
    (Guard.construct k f cur).2 = [] ∧ (Guard.moveConstruct g).2.2 = [] :=
  ⟨rfl, rfl⟩

/-- C9: `release()` is idempotent for every policy variant and every
guard state: releasing a released guard leaves it in exactly the state
one release produces. -/
theorem release_idempotent (g : Guard Nat) : g.release.release = g.release := by
  obtain ⟨f, p⟩ := g
  cases p <;> rfl

/-- C10: move-construction copies the policy state of the source
verbatim into the destination (same baseline, same armed/released
status — no fresh baseline at move time) before disarming the source;
in particular, moving from an already-released guard of a
deactivatable variant yields a destination that never fires. -/
theorem move_copies_policy_then_disarms (g : Guard Nat) :
    (Guard.moveConstruct g).1 = g ∧
    (Guard.moveConstruct g).2.1 = g.release ∧
    (∀ cur : Int, 0 ≤ cur → cur ≤ int_max →
      g.policy.kind ≠ PolicyKind.onExitNoCheck →
      (Guard.moveConstruct g.release).1.destruct cur = []) := by
  refine ⟨rfl, rfl, ?_⟩
  intro cur h0 h1 hk
  obtain ⟨f, p⟩ := g
  cases p with
  | onExitNoCheck => exact absurd rfl hk
  | onExit active =>
      simp [Guard.moveConstruct, Guard.release, Guard.destruct,
        PolicyState.release, PolicyState.should_execute]
  | onFail exception_count =>
      simp [Guard.moveConstruct, Guard.release, Guard.destruct,
        PolicyState.release, PolicyState.should_execute]
      omega
  | onSuccess exception_count =>
      simp [Guard.moveConstruct, Guard.release, Guard.destruct,
        PolicyState.release, PolicyState.should_execute]
      omega

/-- Witness for C10 at a concrete input: a released `OnFail` guard
with baseline 0, moved from; the destination invokes nothing at
count 0 (and the verbatim-copy conjuncts hold definitionally). -/
theorem move_copies_policy_then_disarms_witness :
    (Guard.moveConstruct (Guard.release (⟨3, PolicyState.onFail 0⟩ : Guard Nat))).1.destruct 0
      = [] :=
  (move_copies_policy_then_disarms ⟨3, PolicyState.onFail 0⟩).2.2 0 (by decide)
    (by decide) (by decide)

end Deferral
